import Mathlib

/-!
A shallow embedding of the web-template repository: the error boundary and its
two display templates, the route table, the counter pages and the counter
store's operations, with the JavaScript value and rendering semantics that the
components rely on made explicit.
-/

/-- Fields of a react-router ErrorResponse that the repository reads:
the HTTP status code, the statusText and the data payload. -/
structure ErrorResponse where
  status : Int
  statusText : String
  data : String
  deriving DecidableEq

/-- Modelled from the spec: the counter store behind useCounterStore (imported
from the store module) and useCounter (imported from the use-counter hook) is
not among the provided sources; the spec describes it as a single integer
counter with exactly two operations, increment and reset. -/
inductive CounterOp where
  | increment
  | reset
  deriving DecidableEq

/-- Modelled from the spec: the counter starts at 0. -/
def counterInit : Int := 0

/-- Modelled from the spec: one counter operation applied to the counter value:
increment adds one, reset returns the counter to 0. -/
def applyOp (n : Int) : CounterOp → Int
  | CounterOp.increment => n + 1
  | CounterOp.reset => 0

/-- A sequence of counter operations applied in order. -/
def runOps (n : Int) (ops : List CounterOp) : Int :=
  ops.foldl applyOp n

/-- A JavaScript runtime value as the error boundary can receive it from
useRouteError: undefined, null, a boolean, a number, a string, a generic object
(errObj m st s with its message property, its stack property - none models an
absent property, as the TypeScript cast to Error keeps both at type string -
and the result s of its string conversion), or an object for which
react-router's isRouteErrorResponse check holds (routeErr). -/
inductive JSValue where
  | undefined
  | null
  | boolV (b : Bool)
  | numV (n : Int)
  | strV (s : String)
  | errObj (message : Option String) (stack : Option String) (str : String)
  | routeErr (r : ErrorResponse)
  deriving DecidableEq

/-- A thrown JavaScript TypeError: reading a property of null or undefined. -/
inductive JSError where
  | typeError
  deriving DecidableEq

/-- Property access error.message: throws a TypeError on null and undefined,
yields the message property on generic objects and undefined (none) on every
other value. -/
def getMessage : JSValue → Except JSError (Option String)
  | JSValue.undefined => Except.error JSError.typeError
  | JSValue.null => Except.error JSError.typeError
  | JSValue.errObj m _ _ => Except.ok m
  | _ => Except.ok none

/-- Property access error.stack, with the same semantics as getMessage. -/
def getStack : JSValue → Except JSError (Option String)
  | JSValue.undefined => Except.error JSError.typeError
  | JSValue.null => Except.error JSError.typeError
  | JSValue.errObj _ st _ => Except.ok st
  | _ => Except.ok none

/-- JavaScript string conversion of the values the boundary can meet; a generic
object carries the result of its own conversion. -/
def jsToString : JSValue → String
  | JSValue.undefined => "undefined"
  | JSValue.null => "null"
  | JSValue.boolV true => "true"
  | JSValue.boolV false => "false"
  | JSValue.numV n => toString n
  | JSValue.strV s => s
  | JSValue.errObj _ _ s => s
  | JSValue.routeErr _ => "[object Object]"

/-- react-router's isRouteErrorResponse check: true exactly on the objects
embedded as routeErr (its null guard makes it total, never throwing). -/
def isRouteErrorResponse : JSValue → Bool
  | JSValue.routeErr _ => true
  | _ => false

/-- The TypeScript narrowing performed by the boundary's isRouteErrorResponse
branch: the ErrorResponse when the check holds. -/
def asRouteError : JSValue → Option ErrorResponse
  | JSValue.routeErr r => some r
  | _ => none

/-- A rendered react element: a text node, an element with a tag and children,
or a button carrying the counter operations its onClick handler dispatches. -/
inductive Node where
  | text (s : String)
  | elem (tag : String) (children : List Node)
  | button (clickOps : List CounterOp) (children : List Node)

mutual

/-- The text contents of a rendered tree, in document order. -/
def Node.texts : Node → List String
  | Node.text s => [s]
  | Node.elem _ cs => textsList cs
  | Node.button _ cs => textsList cs

/-- The text contents of a list of children, in order. -/
def textsList : List Node → List String
  | [] => []
  | n :: ns => Node.texts n ++ textsList ns

end

mutual

/-- The buttons of a rendered tree: each with its onClick operations and the
text contents of its label. -/
def Node.buttons : Node → List (List CounterOp × List String)
  | Node.text _ => []
  | Node.elem _ cs => buttonsList cs
  | Node.button ops cs => [(ops, textsList cs)]

/-- The buttons of a list of children, in order. -/
def buttonsList : List Node → List (List CounterOp × List String)
  | [] => []
  | n :: ns => Node.buttons n ++ buttonsList ns

end

/-- The RouteErrorResponse component (src/components/errors/route-error-response.tsx):
a fixed heading, the status and statusText on one line, and the data payload. -/
def RouteErrorResponse (error : ErrorResponse) : Node :=
  Node.elem "div"
    [ Node.elem "div" [Node.elem "h1" [Node.text "Ooops!"]],
      Node.elem "h3"
        [Node.text (toString error.status), Node.text " - ", Node.text error.statusText],
      Node.elem "p" [Node.text error.data] ]

/-- The short-circuit of the expression message-or-String(error): the message
when truthy (a non-empty string), the string conversion of the error value
otherwise. -/
def displayedMessage : Option String → String → String
  | some s, fallback => if s = "" then fallback else s
  | none, fallback => fallback

/-- The Unexpected Error markup of the boundary's fallback branch, as a
function of the displayed message text and the stack property. -/
def genericErrorTemplate (msg : String) (stack : Option String) : Node :=
  Node.elem "div"
    [ Node.elem "h1" [Node.text "Unexpected Error"],
      Node.elem "p" [Node.text msg],
      Node.elem "p" [Node.text "The stack is Here"],
      Node.elem "pre"
        (match stack with
         | some s => [Node.text s]
         | none => []) ]

/-- The fallback branch of the boundary: reads error.message and error.stack
(each throws on null and undefined) and renders the generic template. -/
def genericBranch (error : JSValue) : Except JSError Node :=
  match getMessage error with
  | Except.error e => Except.error e
  | Except.ok msg =>
    match getStack error with
    | Except.error e => Except.error e
    | Except.ok stack =>
      Except.ok (genericErrorTemplate (displayedMessage msg (jsToString error)) stack)

/-- The AppErrorBoundary component (src/pages/errors/app-error-boundary.tsx):
renders RouteErrorResponse when isRouteErrorResponse(error) holds, the generic
template otherwise; a TypeError thrown while rendering is an error outcome. -/
def AppErrorBoundary (error : JSValue) : Except JSError Node :=
  match asRouteError error with
  | some r => Except.ok (RouteErrorResponse r)
  | none => genericBranch error

/-- The Home page (pages/index.tsx): destructures count, increment and reset
from useCounterStore; the count button's onClick is increment, the reset
button's onClick is reset, and the count button's label shows the current
count. -/
def Home (count : Int) : Node :=
  Node.elem "div"
    [ Node.elem "div"
        [ Node.elem "div"
            [ Node.elem "h1" [Node.text "Counter example"],
              Node.elem "h2" [Node.text "Vite + React + TailwindCSS"] ],
          Node.elem "div"
            [ Node.button [CounterOp.increment]
                [Node.text "Count is ", Node.text (toString count)],
              Node.button [CounterOp.reset] [Node.text "Reset"] ],
          Node.elem "span" [Node.text "Edit src/pages/index.tsx to see HMR in action!"] ] ]

/-- The operations App's handleClick dispatches: it invokes increment() once. -/
def handleClickOps : List CounterOp := [CounterOp.increment]

/-- The App component: destructures count and increment from useCounter; the
button's onClick is handleClick and its label shows the current count. -/
def App (count : Int) : Node :=
  Node.elem "div"
    [ Node.elem "div"
        [ Node.elem "div"
            [ Node.elem "h1" [Node.text "Counter example"],
              Node.elem "h2" [Node.text "Vite + React + TailwindCSS"] ],
          Node.button handleClickOps
            [Node.text "Count is ", Node.text (toString count)],
          Node.elem "span" [Node.text "Edit src/pages/index.tsx to see HMR in action!"] ] ]

/-- The counter operations the Home page wires to its buttons. -/
def homeUsedOps : List CounterOp := [CounterOp.increment, CounterOp.reset]

/-- The counter operations the App component invokes. -/
def appUsedOps : List CounterOp := [CounterOp.increment]

/-- A route component reference: eagerly imported, or wrapped by react's lazy
import. -/
inductive RouteComponent where
  | eager (render : Int → Node)
  | lazyLoad (render : Int → Node)

/-- A child route of the route table: its index flag and its Component. -/
structure ChildRoute where
  index : Bool
  component : RouteComponent

/-- The fields of the root RouteObject that the repository sets. -/
structure RootRoute where
  path : String
  errorBoundary : JSValue → Except JSError Node
  children : List ChildRoute

/-- The rootRoutes table: path "/", AppErrorBoundary as the ErrorBoundary, and
exactly one index child whose Component is the lazily loaded Home page. -/
def rootRoutes : RootRoute :=
  { path := "/"
    errorBoundary := AppErrorBoundary
    children := [{ index := true, component := RouteComponent.lazyLoad Home }] }

/-- The message property as the fallback branch reads it, on values where the
access does not throw. -/
def msgOf : JSValue → Option String
  | JSValue.errObj m _ _ => m
  | _ => none

/-- The stack property as the fallback branch reads it, on values where the
access does not throw. -/
def stackOf : JSValue → Option String
  | JSValue.errObj _ st _ => st
  | _ => none

/-- True exactly when the boundary produced a rendered element (no throw). -/
def rendersElement : Except JSError Node → Bool
  | Except.ok _ => true
  | Except.error _ => false

theorem getMessage_eq (e : JSValue) (h1 : e ≠ JSValue.null) (h2 : e ≠ JSValue.undefined) :
    getMessage e = Except.ok (msgOf e) := by
  cases e <;> simp_all [getMessage, msgOf]

theorem getStack_eq (e : JSValue) (h1 : e ≠ JSValue.null) (h2 : e ≠ JSValue.undefined) :
    getStack e = Except.ok (stackOf e) := by
  cases e <;> simp_all [getStack, stackOf]

theorem asRouteError_eq_none (e : JSValue) (h : isRouteErrorResponse e = false) :
    asRouteError e = none := by
  cases e <;> simp_all [asRouteError, isRouteErrorResponse]

theorem boundary_generic (e : JSValue) (h : isRouteErrorResponse e = false)
    (h1 : e ≠ JSValue.null) (h2 : e ≠ JSValue.undefined) :
    AppErrorBoundary e =
      Except.ok (genericErrorTemplate (displayedMessage (msgOf e) (jsToString e)) (stackOf e)) := by
  rw [AppErrorBoundary, asRouteError_eq_none e h]
  rw [genericBranch, getMessage_eq e h1 h2, getStack_eq e h1 h2]

theorem route_texts (r : ErrorResponse) :
    Node.texts (RouteErrorResponse r) =
      ["Ooops!", toString r.status, " - ", r.statusText, r.data] := by
  simp [RouteErrorResponse, Node.texts, textsList]

theorem generic_texts (msg : String) (stack : Option String) :
    Node.texts (genericErrorTemplate msg stack) =
      "Unexpected Error" :: msg :: "The stack is Here" :: stack.toList := by
  cases stack <;> simp [genericErrorTemplate, Node.texts, textsList, Option.toList]

theorem route_ne_generic (r : ErrorResponse) (msg : String) (stack : Option String) :
    RouteErrorResponse r ≠ genericErrorTemplate msg stack := by
  intro h
  have h2 := congrArg Node.texts h
  rw [route_texts, generic_texts] at h2
  have h3 : "Ooops!" = "Unexpected Error" := by
    exact (List.cons.injEq _ _ _ _ ▸ h2 : _ ∧ _).1
  exact absurd h3 (by decide)

theorem runOps_nonneg : ∀ (ops : List CounterOp) (n : Int), 0 ≤ n → 0 ≤ runOps n ops
  | [], _, h => h
  | op :: ops, n, h => by
    have hop : 0 ≤ applyOp n op := by
      cases op
      · simp only [applyOp]
        omega
      · simp [applyOp]
    simpa [runOps] using runOps_nonneg ops (applyOp n op) hop

/-- C2: clicking the count button dispatches exactly one increment operation,
running that operation changes the counter state from n to n + 1, and the count
shown on the button's label is the current counter state, in the store-backed
Home page and the hook-backed App component alike. -/
theorem C2_increment_click (n : Int) :
    Node.buttons (Home n) =
      [([CounterOp.increment], ["Count is ", toString n]),
       ([CounterOp.reset], ["Reset"])] ∧
    Node.buttons (App n) = [([CounterOp.increment], ["Count is ", toString n])] ∧
    runOps n [CounterOp.increment] = n + 1 := by
  refine ⟨?_, ?_, rfl⟩ <;>
    simp [Home, App, Node.buttons, buttonsList, Node.texts, textsList, handleClickOps]

/-- C3: the counter starts at 0, and every sequence of counter operations
applied from the initial state leaves the counter value non-negative. -/
theorem C3_nonneg_invariant (ops : List CounterOp) :
    counterInit = 0 ∧ 0 ≤ runOps counterInit ops :=
  ⟨rfl, runOps_nonneg ops counterInit (by decide)⟩

/-- C4: the counter exposes exactly the two operations increment and reset, and
both consumers in the sources, the Home page and the App component, use only
these operations. -/
theorem C4_counter_interface :
    (∀ op : CounterOp, op = CounterOp.increment ∨ op = CounterOp.reset) ∧
    homeUsedOps ⊆ [CounterOp.increment, CounterOp.reset] ∧
    appUsedOps ⊆ [CounterOp.increment, CounterOp.reset] := by
  refine ⟨fun op => ?_, ?_, ?_⟩
  · cases op
    · exact Or.inl rfl
    · exact Or.inr rfl
  · simp [homeUsedOps]
  · simp [appUsedOps]

/-- C5: the route table is a single root route at path "/" whose ErrorBoundary
is AppErrorBoundary, with exactly one child: an index route whose Component is
the lazily loaded Home page. -/
theorem C5_route_table :
    rootRoutes.path = "/" ∧
    rootRoutes.errorBoundary = AppErrorBoundary ∧
    rootRoutes.children =
      [{ index := true, component := RouteComponent.lazyLoad Home }] :=
  ⟨rfl, rfl, rfl⟩

/-- C7: for every ErrorResponse, the output of RouteErrorResponse contains the
error's HTTP status code, its statusText and its data payload among its
rendered text contents. -/
theorem C7_route_error_content (e : ErrorResponse) :
    toString e.status ∈ Node.texts (RouteErrorResponse e) ∧
    e.statusText ∈ Node.texts (RouteErrorResponse e) ∧
    e.data ∈ Node.texts (RouteErrorResponse e) := by
  simp [route_texts]

/-- Counterexample to C1 as stated: the error value null is not a route error
response, yet the boundary does not render the generic template on it: the
property access in the fallback branch throws a TypeError. -/
theorem C1_counterexample :
    isRouteErrorResponse JSValue.null = false ∧
    AppErrorBoundary JSValue.null = Except.error JSError.typeError :=
  ⟨rfl, rfl⟩

/-- Counterexample to C6 as stated: two route errors selected by the same
branch render different content, so the template's output is not fixed beyond
the choice of branch. -/
theorem C6_counterexample :
    isRouteErrorResponse (JSValue.routeErr ⟨404, "Not Found", "nothing here"⟩) = true ∧
    isRouteErrorResponse (JSValue.routeErr ⟨500, "Server Error", "boom"⟩) = true ∧
    Node.texts (RouteErrorResponse ⟨404, "Not Found", "nothing here"⟩) ≠
      Node.texts (RouteErrorResponse ⟨500, "Server Error", "boom"⟩) := by
  refine ⟨rfl, rfl, ?_⟩
  intro h
  rw [route_texts, route_texts] at h
  simp at h

/-- Counterexample to C9 as stated: the string error values foo and bar agree
on their message and stack properties, yet the generic branch renders different
output for them, because the displayed fallback is String(error). -/
theorem C9_counterexample :
    getMessage (JSValue.strV "foo") = getMessage (JSValue.strV "bar") ∧
    getStack (JSValue.strV "foo") = getStack (JSValue.strV "bar") ∧
    AppErrorBoundary (JSValue.strV "foo") ≠ AppErrorBoundary (JSValue.strV "bar") := by
  refine ⟨rfl, rfl, ?_⟩
  intro h
  have h2 : genericErrorTemplate "foo" none = genericErrorTemplate "bar" none := by
    simpa [AppErrorBoundary, asRouteError, genericBranch, getMessage, getStack,
      displayedMessage, jsToString] using h
  have h3 := congrArg Node.texts h2
  rw [generic_texts, generic_texts] at h3
  simp at h3

/-- Counterexample to C10 as stated: on the error value undefined the fallback
branch's property access throws a TypeError, so the boundary does not return a
rendered element. -/
theorem C10_counterexample :
    AppErrorBoundary JSValue.undefined = Except.error JSError.typeError :=
  rfl

/-- C1 amended: for every error value other than null and undefined, the
boundary renders the RouteErrorResponse template exactly when
isRouteErrorResponse holds of it, and the generic Unexpected Error template
exactly when it does not, with no third rendered outcome; on null and undefined
the fallback branch throws a TypeError instead of rendering. -/
theorem C1_dispatch (e : JSValue) (h1 : e ≠ JSValue.null) (h2 : e ≠ JSValue.undefined) :
    ((∃ r, e = JSValue.routeErr r ∧ AppErrorBoundary e = Except.ok (RouteErrorResponse r)) ↔
      isRouteErrorResponse e = true) ∧
    ((∃ m st, AppErrorBoundary e = Except.ok (genericErrorTemplate m st)) ↔
      isRouteErrorResponse e = false) := by
  cases e with
  | undefined => exact absurd rfl h2
  | null => exact absurd rfl h1
  | routeErr r =>
    refine ⟨⟨fun _ => rfl, fun _ => ⟨r, rfl, rfl⟩⟩, ?_⟩
    simp only [isRouteErrorResponse]
    constructor
    · rintro ⟨m, st, hok⟩
      have hb : RouteErrorResponse r = genericErrorTemplate m st := by
        simpa [AppErrorBoundary, asRouteError] using hok
      exact absurd hb (route_ne_generic r m st)
    · intro hfalse
      cases hfalse
  | boolV b =>
    refine ⟨?_, ?_⟩
    · simp [isRouteErrorResponse]
    · simp only [isRouteErrorResponse]
      exact iff_of_true ⟨_, _, rfl⟩ trivial
  | numV n =>
    refine ⟨?_, ?_⟩
    · simp [isRouteErrorResponse]
    · simp only [isRouteErrorResponse]
      exact iff_of_true ⟨_, _, rfl⟩ trivial
  | strV s =>
    refine ⟨?_, ?_⟩
    · simp [isRouteErrorResponse]
    · simp only [isRouteErrorResponse]
      exact iff_of_true ⟨_, _, rfl⟩ trivial
  | errObj m st str =>
    refine ⟨?_, ?_⟩
    · simp [isRouteErrorResponse]
    · simp only [isRouteErrorResponse]
      exact iff_of_true ⟨_, _, rfl⟩ trivial

/-- Witness for C1 at the concrete error value strV "boom". -/
theorem C1_dispatch_witness :
    ((∃ r, JSValue.strV "boom" = JSValue.routeErr r ∧
        AppErrorBoundary (JSValue.strV "boom") = Except.ok (RouteErrorResponse r)) ↔
      isRouteErrorResponse (JSValue.strV "boom") = true) ∧
    ((∃ m st, AppErrorBoundary (JSValue.strV "boom") = Except.ok (genericErrorTemplate m st)) ↔
      isRouteErrorResponse (JSValue.strV "boom") = false) :=
  C1_dispatch (JSValue.strV "boom") (by decide) (by decide)

/-- C6 amended: each branch renders one fixed template skeleton whose content
varies only through the selected error's own fields: the route branch's text
content is exactly the fixed heading followed by the error's status, statusText
and data, and the generic branch's output is fully determined by the error's
message property, stack property and string conversion. -/
theorem C6_fixed_templates (r : ErrorResponse) (v v2 : JSValue)
    (h : isRouteErrorResponse v = false) (h2 : isRouteErrorResponse v2 = false)
    (hm : getMessage v = getMessage v2) (hs : getStack v = getStack v2)
    (hstr : jsToString v = jsToString v2) :
    Node.texts (RouteErrorResponse r) =
      ["Ooops!", toString r.status, " - ", r.statusText, r.data] ∧
    AppErrorBoundary v = AppErrorBoundary v2 := by
  refine ⟨route_texts r, ?_⟩
  rw [AppErrorBoundary, AppErrorBoundary, asRouteError_eq_none v h,
    asRouteError_eq_none v2 h2]
  rw [genericBranch, genericBranch, hm, hs, hstr]

/-- Witness for C6 at a concrete route error and the concrete error value
strV "a" on both sides of the generic branch. -/
theorem C6_fixed_templates_witness :
    Node.texts (RouteErrorResponse ⟨404, "Not Found", "gone"⟩) =
      ["Ooops!", toString (404 : Int), " - ", "Not Found", "gone"] ∧
    AppErrorBoundary (JSValue.strV "a") = AppErrorBoundary (JSValue.strV "a") :=
  C6_fixed_templates ⟨404, "Not Found", "gone"⟩ (JSValue.strV "a") (JSValue.strV "a")
    rfl rfl rfl rfl rfl

/-- C9 amended: for every error value that is not a route error response and
not null or undefined, the generic template displays the message property when
it is a non-empty string and the string conversion of the error otherwise,
together with the stack property; two such inputs agreeing on message, stack
and string conversion render the same output. -/
theorem C9_generic_display (e e2 : JSValue)
    (h : isRouteErrorResponse e = false)
    (h1 : e ≠ JSValue.null) (h2 : e ≠ JSValue.undefined) :
    AppErrorBoundary e =
      Except.ok (genericErrorTemplate (displayedMessage (msgOf e) (jsToString e)) (stackOf e)) ∧
    (∀ m, msgOf e = some m → m ≠ "" → displayedMessage (msgOf e) (jsToString e) = m) ∧
    (msgOf e = none ∨ msgOf e = some "" → displayedMessage (msgOf e) (jsToString e) = jsToString e) ∧
    (isRouteErrorResponse e2 = false → e2 ≠ JSValue.null → e2 ≠ JSValue.undefined →
      msgOf e = msgOf e2 → stackOf e = stackOf e2 → jsToString e = jsToString e2 →
      AppErrorBoundary e = AppErrorBoundary e2) := by
  refine ⟨boundary_generic e h h1 h2, ?_, ?_, ?_⟩
  · intro m hm hne
    rw [hm]
    simp [displayedMessage, hne]
  · rintro (hm | hm) <;> rw [hm] <;> simp [displayedMessage]
  · intro h3 h4 h5 hm hs hstr
    rw [boundary_generic e h h1 h2, boundary_generic e2 h3 h4 h5, hm, hs, hstr]

/-- Witness for C9 at a concrete error object with message boom and stack
trace. -/
theorem C9_generic_display_witness :
    AppErrorBoundary (JSValue.errObj (some "boom") (some "trace") "[object Object]") =
      Except.ok (genericErrorTemplate
        (displayedMessage
          (msgOf (JSValue.errObj (some "boom") (some "trace") "[object Object]"))
          (jsToString (JSValue.errObj (some "boom") (some "trace") "[object Object]")))
        (stackOf (JSValue.errObj (some "boom") (some "trace") "[object Object]"))) :=
  (C9_generic_display (JSValue.errObj (some "boom") (some "trace") "[object Object]")
    (JSValue.errObj (some "boom") (some "trace") "[object Object]")
    rfl (by decide) (by decide)).1

/-- C10 amended: for every error value other than null and undefined, the
boundary returns a rendered element without throwing; on null and undefined the
property accesses of the fallback branch throw a TypeError. -/
theorem C10_no_throw (e : JSValue) (h1 : e ≠ JSValue.null) (h2 : e ≠ JSValue.undefined) :
    rendersElement (AppErrorBoundary e) = true := by
  cases e with
  | undefined => exact absurd rfl h2
  | null => exact absurd rfl h1
  | boolV b => rfl
  | numV n => rfl
  | strV s => rfl
  | errObj m st str => rfl
  | routeErr r => rfl

/-- Witness for C10 at the concrete error value boolV true. -/
theorem C10_no_throw_witness :
    rendersElement (AppErrorBoundary (JSValue.boolV true)) = true :=
  C10_no_throw (JSValue.boolV true) (by decide) (by decide)
